import Mathlib

/-!
Shallow embedding of decompiler/instruction.h (ScummVM tools decompiler):
the instruction/parameter data model and the textual rendering performed
by the stream-output operator of Instruction.
-/

namespace Decomp

/-- Categories of instructions, mirroring enum InstType of decompiler/instruction.h. -/
inductive InstType where
  | kBinaryOp
  | kCall
  | kCondJump
  | kCondJumpRel
  | kDup
  | kJump
  | kJumpRel
  | kLoad
  | kReturn
  | kSpecial
  | kStack
  | kStore
  | kUnaryOp
deriving DecidableEq

/-- Kinds of parameters, mirroring enum ParamType of decompiler/instruction.h. -/
inductive ParamType where
  | kSByte
  | kByte
  | kShort
  | kUShort
  | kInt
  | kUInt
  | kString
deriving DecidableEq

/-- The tagged union stored in a Parameter, mirroring the
variant over int32, uint32 and std::string. The signed alternative is
modelled as Int and the unsigned alternative as Nat. -/
inductive Value where
  | vInt : Int → Value
  | vUInt : Nat → Value
  | vStr : String → Value
deriving DecidableEq

/-- The failure raised when a variant accessor is applied to a variant
storing a different alternative (bad_get in the source; the TypeMismatch
failure of the specification). -/
inductive BadGet where
  | badGet
deriving DecidableEq

/-- A parameter: a declared kind together with the stored tagged value,
mirroring struct Parameter of decompiler/instruction.h. -/
structure Parameter where
  _type : ParamType
  _value : Value
deriving DecidableEq

/-- Accessor getSigned of struct Parameter: extracts the int32 alternative
of the variant; fails with bad_get when the variant stores a different
alternative. It inspects only the stored variant, never the declared kind. -/
def Parameter.getSigned (p : Parameter) : Except BadGet Int :=
  match p._value with
  | Value.vInt i => Except.ok i
  | _ => Except.error BadGet.badGet

/-- Accessor getUnsigned of struct Parameter: extracts the uint32
alternative of the variant; fails with bad_get otherwise. -/
def Parameter.getUnsigned (p : Parameter) : Except BadGet Nat :=
  match p._value with
  | Value.vUInt n => Except.ok n
  | _ => Except.error BadGet.badGet

/-- Accessor getString of struct Parameter: extracts the string
alternative of the variant; fails with bad_get otherwise. -/
def Parameter.getString (p : Parameter) : Except BadGet String :=
  match p._value with
  | Value.vStr s => Except.ok s
  | _ => Except.error BadGet.badGet

/-- An instruction record, mirroring struct Instruction of
decompiler/instruction.h. The uint32 fields are modelled as Nat and the
int16 stack delta as Int. -/
structure Instruction where
  _opcode : Nat
  _address : Nat
  _stackChange : Int
  _name : String
  _type : InstType
  _params : List Parameter
  _codeGenData : String
deriving DecidableEq

/-- Hexadecimal digit character, lowercase, for a nibble below 16. -/
def hexDigitLower (n : Nat) : Char :=
  if n < 10 then Char.ofNat (48 + n) else Char.ofNat (87 + n)

/-- Hexadecimal digit character, uppercase, for a nibble below 16. -/
def hexDigitUpper (n : Nat) : Char :=
  if n < 10 then Char.ofNat (48 + n) else Char.ofNat (55 + n)

/-- The eight nibbles of a 32-bit value, most significant first. Bits
beyond the 32nd are discarded, as the uint32 storage of the source does. -/
def nibbles (n : Nat) : List Nat :=
  [n / 16 ^ 7 % 16, n / 16 ^ 6 % 16, n / 16 ^ 5 % 16, n / 16 ^ 4 % 16,
   n / 16 ^ 3 % 16, n / 16 ^ 2 % 16, n / 16 % 16, n % 16]

/-- The leading address field written by the format directive
percent-08x applied to the uint32 address: exactly eight zero-padded
lowercase hexadecimal digits. -/
def addrField (n : Nat) : String :=
  String.mk ((nibbles n).map hexDigitLower)

/-- The digits written by the format directive percent-X applied to a
uint32 value: uppercase hexadecimal without padding (the zero value
prints as a single 0 digit). -/
def hexU32 (n : Nat) : String :=
  match ((nibbles n).map hexDigitUpper).dropWhile (fun c => c == '0') with
  | [] => "0"
  | ds => String.mk ds

/-- Reduction of an int32 value to its twos-complement uint32 bit
pattern, as the stream output of a signed value in hexadecimal base does. -/
def uint32Of (i : Int) : Nat :=
  (i % (2 : Int) ^ 32).toNat

/-- Default textual form of the variant (its stream-output operator):
the stored alternative is printed directly, signed and unsigned values in
decimal and strings verbatim. -/
def renderValue : Value → String
  | Value.vInt i => toString i
  | Value.vUInt n => toString n
  | Value.vStr s => s

/-- Whether the instruction category takes the hexadecimal parameter
path of the output operator: the condition listing kCondJump,
kCondJumpRel, kJump, kJumpRel and kCall. -/
def isJumpType : InstType → Bool
  | InstType.kCondJump => true
  | InstType.kCondJumpRel => true
  | InstType.kJump => true
  | InstType.kJumpRel => true
  | InstType.kCall => true
  | _ => false

/-- The text contributed by one parameter (leading space included, the
separating comma excluded), following the body of the parameter loop of
the output operator: on the hexadecimal path the declared kind selects
getSigned or getUnsigned and the result prints as 0x plus uppercase
hexadecimal, the default switch case and the non-jump path print the
variant directly. -/
def renderParam (t : InstType) (p : Parameter) : Except BadGet String :=
  if isJumpType t then
    match p._type with
    | ParamType.kSByte | ParamType.kShort | ParamType.kInt =>
      match p.getSigned with
      | Except.ok i => Except.ok (" 0x" ++ hexU32 (uint32Of i))
      | Except.error e => Except.error e
    | ParamType.kByte | ParamType.kUShort | ParamType.kUInt =>
      match p.getUnsigned with
      | Except.ok n => Except.ok (" 0x" ++ hexU32 n)
      | Except.error e => Except.error e
    | ParamType.kString => Except.ok (" " ++ renderValue p._value)
  else
    Except.ok (" " ++ renderValue p._value)

/-- The text contributed by the whole parameter loop: a separating comma
before every parameter but the first, then the text of the parameter. A
bad_get failure of any parameter aborts the rendering. -/
def renderParams (t : InstType) : Bool → List Parameter → Except BadGet String
  | _, [] => Except.ok ""
  | first, p :: ps =>
    match renderParam t p with
    | Except.error e => Except.error e
    | Except.ok s =>
      match renderParams t false ps with
      | Except.error e => Except.error e
      | Except.ok rest => Except.ok ((if first then "" else ",") ++ s ++ rest)

/-- The full output operator of struct Instruction: the zero-padded
lowercase hexadecimal address, a colon and a space, the mnemonic name,
the parameter loop, then a space, the stack delta in parentheses in
decimal, and a newline. -/
def render (inst : Instruction) : Except BadGet String :=
  match renderParams inst._type true inst._params with
  | Except.error e => Except.error e
  | Except.ok ps =>
    Except.ok (addrField inst._address ++ ": " ++ inst._name ++ ps ++
      " (" ++ toString inst._stackChange ++ ")" ++ "\n")

/-- A parameter whose declared kind is numeric while the stored variant
alternative is not the one that kind selects: exactly the situation in
which the hexadecimal path of the output operator hits bad_get. -/
def numericMismatch (p : Parameter) : Bool :=
  match p._type, p._value with
  | ParamType.kSByte, Value.vInt _ => false
  | ParamType.kShort, Value.vInt _ => false
  | ParamType.kInt, Value.vInt _ => false
  | ParamType.kByte, Value.vUInt _ => false
  | ParamType.kUShort, Value.vUInt _ => false
  | ParamType.kUInt, Value.vUInt _ => false
  | ParamType.kString, _ => false
  | _, _ => true

/-- Signed kinds of the specification: kSByte, kShort, kInt. -/
def isSignedKind : ParamType → Bool
  | ParamType.kSByte => true
  | ParamType.kShort => true
  | ParamType.kInt => true
  | _ => false

/-- Unsigned kinds of the specification: kByte, kUShort, kUInt. -/
def isUnsignedKind : ParamType → Bool
  | ParamType.kByte => true
  | ParamType.kUShort => true
  | ParamType.kUInt => true
  | _ => false

/-- Forward traversal of an instruction stream (begin to end of the
vector of instructions). -/
def forwardSeq (s : List Instruction) : List Instruction := s

/-- Reverse traversal of an instruction stream (end to begin of the
vector of instructions). -/
def reverseSeq (s : List Instruction) : List Instruction := s.reverse

/-- Example instruction at address 42 with no parameters. -/
def exAddr42 : Instruction :=
  { _opcode := 0, _address := 42, _stackChange := 0, _name := "foo",
    _type := InstType.kLoad, _params := [], _codeGenData := "" }

/-- Example: load instruction carrying a parameter declared signed while
the variant stores the unsigned alternative. -/
def exLoadBadInt : Instruction :=
  { _opcode := 0, _address := 0, _stackChange := 0, _name := "foo",
    _type := InstType.kLoad,
    _params := [{ _type := ParamType.kInt, _value := Value.vUInt 5 }],
    _codeGenData := "" }

/-- Example: jump instruction carrying a parameter declared signed while
the variant stores the unsigned alternative. -/
def exJumpBadInt : Instruction :=
  { _opcode := 0, _address := 0, _stackChange := 0, _name := "foo",
    _type := InstType.kJump,
    _params := [{ _type := ParamType.kInt, _value := Value.vUInt 5 }],
    _codeGenData := "" }

/-- Example: jump instruction with one signed int parameter of value -16. -/
def exJumpNeg16 : Instruction :=
  { _opcode := 0, _address := 0, _stackChange := 0, _name := "foo",
    _type := InstType.kJump,
    _params := [{ _type := ParamType.kInt, _value := Value.vInt (-16) }],
    _codeGenData := "" }

/-- Example: load instruction with one signed int parameter of value -16. -/
def exLoadNeg16 : Instruction :=
  { _opcode := 0, _address := 0, _stackChange := 0, _name := "foo",
    _type := InstType.kLoad,
    _params := [{ _type := ParamType.kInt, _value := Value.vInt (-16) }],
    _codeGenData := "" }

/-- Example: call instruction with one unsigned int parameter of value 4096. -/
def exCall4096 : Instruction :=
  { _opcode := 0, _address := 0, _stackChange := 0, _name := "foo",
    _type := InstType.kCall,
    _params := [{ _type := ParamType.kUInt, _value := Value.vUInt 4096 }],
    _codeGenData := "" }

/-- Example: instruction with stack delta -2 and no parameters. -/
def exNeg2 : Instruction :=
  { _opcode := 0, _address := 0, _stackChange := -2, _name := "foo",
    _type := InstType.kLoad, _params := [], _codeGenData := "" }

/-- Example: instruction with stack delta 3 and no parameters. -/
def exPos3 : Instruction :=
  { _opcode := 0, _address := 0, _stackChange := 3, _name := "foo",
    _type := InstType.kLoad, _params := [], _codeGenData := "" }

/-- Example: instruction identical to exOp2 in every rendered field but
with a different opcode and different code generation metadata. -/
def exOp1 : Instruction :=
  { _opcode := 1, _address := 5, _stackChange := 0, _name := "foo",
    _type := InstType.kLoad, _params := [], _codeGenData := "meta" }

/-- Example: counterpart of exOp1 with opcode 2 and empty metadata. -/
def exOp2 : Instruction :=
  { _opcode := 2, _address := 5, _stackChange := 0, _name := "foo",
    _type := InstType.kLoad, _params := [], _codeGenData := "" }

/-- Example: instruction at address 7 with no parameters. -/
def exEmpty7 : Instruction :=
  { _opcode := 0, _address := 7, _stackChange := 5, _name := "bar",
    _type := InstType.kStack, _params := [], _codeGenData := "" }

/-- On the non-hexadecimal path (category outside the jump and call
set), the parameter loop body prints the variant directly and cannot
fail. -/
theorem renderParam_ok_of_not_jump (t : InstType) (p : Parameter)
    (h : isJumpType t = false) :
    renderParam t p = Except.ok (" " ++ renderValue p._value) := by
  simp [renderParam, h]

/-- For a category outside the jump and call set, the whole parameter
loop succeeds on every parameter list. -/
theorem renderParams_ok_of_not_jump (t : InstType) (h : isJumpType t = false) :
    ∀ (ps : List Parameter) (first : Bool),
      ∃ s, renderParams t first ps = Except.ok s := by
  intro ps
  induction ps with
  | nil => exact fun _ => ⟨"", rfl⟩
  | cons p ps ih =>
    intro first
    obtain ⟨s, hs⟩ := ih false
    refine ⟨(if first then "" else ",") ++ (" " ++ renderValue p._value) ++ s, ?_⟩
    simp only [renderParams, renderParam_ok_of_not_jump t p h, hs]

/-- On the hexadecimal path, a parameter whose declared numeric kind
disagrees with the stored alternative makes the loop body fail with
bad_get. -/
theorem renderParam_error_of_mismatch (t : InstType) (p : Parameter)
    (hj : isJumpType t = true) (hm : numericMismatch p = true) :
    renderParam t p = Except.error BadGet.badGet := by
  obtain ⟨pt, pv⟩ := p
  cases pt <;> cases pv <;>
    simp_all [renderParam, numericMismatch, Parameter.getSigned, Parameter.getUnsigned]

/-- A bad_get failure of any member of the parameter list aborts the
whole parameter loop with that failure. -/
theorem renderParams_error_of_mem (t : InstType) (p : Parameter)
    (hp : renderParam t p = Except.error BadGet.badGet) :
    ∀ (ps : List Parameter) (first : Bool), p ∈ ps →
      renderParams t first ps = Except.error BadGet.badGet := by
  intro ps
  induction ps with
  | nil => intro _ h; cases h
  | cons q qs ih =>
    intro first h
    rcases List.mem_cons.mp h with h | h
    · subst h
      simp only [renderParams, hp]
    · cases hq : renderParam t q with
      | error e => cases e; simp only [renderParams, hq]
      | ok s => simp only [renderParams, hq, ih false h]

/-- A parameter whose declared kind agrees with the stored alternative
(or is the string kind) never makes the loop body fail, on either path. -/
theorem renderParam_ok_of_not_mismatch (t : InstType) (p : Parameter)
    (hm : numericMismatch p = false) :
    ∃ s, renderParam t p = Except.ok s := by
  cases hj : isJumpType t
  · exact ⟨" " ++ renderValue p._value, renderParam_ok_of_not_jump t p hj⟩
  · obtain ⟨pt, pv⟩ := p
    cases pt <;> cases pv <;>
      simp_all [renderParam, numericMismatch, Parameter.getSigned,
        Parameter.getUnsigned]

/-- When every parameter of the list is free of numeric mismatch, the
whole parameter loop succeeds, on either path. -/
theorem renderParams_ok_of_all_not_mismatch (t : InstType) :
    ∀ ps : List Parameter, (∀ p ∈ ps, numericMismatch p = false) →
      ∀ first : Bool, ∃ s, renderParams t first ps = Except.ok s := by
  intro ps
  induction ps with
  | nil => exact fun _ _ => ⟨"", rfl⟩
  | cons p ps ih =>
    intro hall first
    obtain ⟨s, hs⟩ := renderParam_ok_of_not_mismatch t p (hall p (List.mem_cons_self p ps))
    obtain ⟨rest, hrest⟩ := ih (fun q hq => hall q (List.mem_cons_of_mem p hq)) false
    exact ⟨(if first then "" else ",") ++ s ++ rest, by
      simp only [renderParams, hs, hrest]⟩

/-- Claim C1, counterexample: the leading address field is lowercase
hexadecimal, so the instruction at address 0x2A renders with leading
field 0000002a, not the claimed uppercase 0000002A. -/
theorem C1_counterexample :
    render exAddr42 = Except.ok "0000002a: foo (0)\n" ∧
    ("0000002a: foo (0)\n").take 8 = "0000002a" ∧
    "0000002a" ≠ "0000002A" :=
  ⟨rfl, rfl, by decide⟩

/-- Claim C1, amended: rendering first emits the address as exactly
eight zero-padded lowercase hexadecimal digits, then a colon, a space
and the mnemonic name; address 0x2A yields the leading field 0000002a. -/
theorem C1_amended :
    (∀ (inst : Instruction) (r : String), render inst = Except.ok r →
      ∃ rest, r = addrField inst._address ++ ": " ++ inst._name ++ rest) ∧
    (∀ n : Nat, (addrField n).length = 8) ∧
    addrField 42 = "0000002a" := by
  refine ⟨?_, ?_, by rfl⟩
  · intro inst r h
    cases heq : renderParams inst._type true inst._params with
    | error e => simp [render, heq] at h
    | ok ps =>
      simp only [render, heq, Except.ok.injEq] at h
      refine ⟨ps ++ " (" ++ toString inst._stackChange ++ ")" ++ "\n", ?_⟩
      rw [← h]
      simp [String.append_assoc]
  · intro n
    simp [addrField, nibbles, String.length]

/-- Witness for the amended claim C1 at the concrete instruction with
address 42. -/
theorem C1_witness :
    ∃ rest, "0000002a: foo (0)\n" =
      addrField exAddr42._address ++ ": " ++ exAddr42._name ++ rest :=
  C1_amended.1 exAddr42 "0000002a: foo (0)\n" (by rfl)

/-- Claim C2, counterexample: kSByte is a signed kind, yet on a
parameter declared kSByte whose variant stores the unsigned alternative
the signed accessor fails and the unsigned accessor succeeds; accessor
success is not decided by the declared kind. -/
theorem C2_counterexample :
    isSignedKind ParamType.kSByte = true ∧
    Parameter.getSigned { _type := ParamType.kSByte, _value := Value.vUInt 0 } =
      Except.error BadGet.badGet ∧
    Parameter.getUnsigned { _type := ParamType.kSByte, _value := Value.vUInt 0 } =
      Except.ok 0 :=
  ⟨rfl, rfl, rfl⟩

/-- Claim C2, amended: each accessor succeeds, returning the stored
value, exactly when the variant stores the alternative that accessor
extracts, and fails with bad_get otherwise, independently of the
declared kind. -/
theorem C2_amended :
    ∀ p : Parameter,
      (∀ i : Int, p._value = Value.vInt i → p.getSigned = Except.ok i) ∧
      ((∀ i : Int, p._value ≠ Value.vInt i) →
        p.getSigned = Except.error BadGet.badGet) ∧
      (∀ n : Nat, p._value = Value.vUInt n → p.getUnsigned = Except.ok n) ∧
      ((∀ n : Nat, p._value ≠ Value.vUInt n) →
        p.getUnsigned = Except.error BadGet.badGet) ∧
      (∀ s : String, p._value = Value.vStr s → p.getString = Except.ok s) ∧
      ((∀ s : String, p._value ≠ Value.vStr s) →
        p.getString = Except.error BadGet.badGet) := by
  intro p
  obtain ⟨pt, pv⟩ := p
  cases pv with
  | vInt i =>
    refine ⟨?_, ?_, ?_, ?_, ?_, ?_⟩
    · intro j h; cases h; rfl
    · intro h; exact absurd rfl (h i)
    · intro n h; cases h
    · intro _; rfl
    · intro s h; cases h
    · intro _; rfl
  | vUInt n =>
    refine ⟨?_, ?_, ?_, ?_, ?_, ?_⟩
    · intro j h; cases h
    · intro _; rfl
    · intro m h; cases h; rfl
    · intro h; exact absurd rfl (h n)
    · intro s h; cases h
    · intro _; rfl
  | vStr s =>
    refine ⟨?_, ?_, ?_, ?_, ?_, ?_⟩
    · intro j h; cases h
    · intro _; rfl
    · intro m h; cases h
    · intro _; rfl
    · intro u h; cases h; rfl
    · intro h; exact absurd rfl (h s)

/-- Witness for the amended claim C2: the signed accessor extracts the
stored signed value even under a declared unsigned kind. -/
theorem C2_witness :
    Parameter.getSigned { _type := ParamType.kByte, _value := Value.vInt 5 } =
      Except.ok 5 :=
  (C2_amended { _type := ParamType.kByte, _value := Value.vInt 5 }).1 5 rfl

/-- Claim C3, counterexample: a load instruction holding a parameter
declared kInt whose variant stores the unsigned alternative renders
successfully, printing the stored alternative, instead of failing with
the type mismatch. -/
theorem C3_counterexample :
    numericMismatch { _type := ParamType.kInt, _value := Value.vUInt 5 } = true ∧
    render exLoadBadInt = Except.ok "00000000: foo 5 (0)\n" :=
  ⟨rfl, rfl⟩

/-- Claim C3, amended: rendering surfaces the bad_get failure of an
inconsistent numeric parameter exactly on the control-transfer
categories: rendering fails precisely when the category is in the jump
and call set and some parameter carries a numeric mismatch; on every
other category, and on a control-transfer instruction all of whose
parameters are coherent, rendering succeeds, the non-transfer
categories printing each stored alternative directly. -/
theorem C3_amended :
    (∀ inst : Instruction, isJumpType inst._type = false →
      ∃ s, render inst = Except.ok s) ∧
    (∀ (inst : Instruction) (p : Parameter), isJumpType inst._type = true →
      p ∈ inst._params → numericMismatch p = true →
      render inst = Except.error BadGet.badGet) ∧
    (∀ inst : Instruction, render inst = Except.error BadGet.badGet ↔
      (isJumpType inst._type = true ∧
        ∃ p ∈ inst._params, numericMismatch p = true)) := by
  have hok : ∀ inst : Instruction,
      (∀ s, renderParams inst._type true inst._params = Except.ok s →
        render inst = Except.ok (addrField inst._address ++ ": " ++ inst._name ++
          s ++ " (" ++ toString inst._stackChange ++ ")" ++ "\n")) :=
    fun inst s hs => by simp only [render, hs]
  have hnj : ∀ inst : Instruction, isJumpType inst._type = false →
      ∃ s, render inst = Except.ok s := by
    intro inst h
    obtain ⟨s, hs⟩ := renderParams_ok_of_not_jump inst._type h inst._params true
    exact ⟨_, hok inst s hs⟩
  have herr : ∀ (inst : Instruction) (p : Parameter), isJumpType inst._type = true →
      p ∈ inst._params → numericMismatch p = true →
      render inst = Except.error BadGet.badGet := by
    intro inst p hj hmem hm
    have he := renderParams_error_of_mem inst._type p
      (renderParam_error_of_mismatch inst._type p hj hm) inst._params true hmem
    simp only [render, he]
  refine ⟨hnj, herr, ?_⟩
  intro inst
  constructor
  · intro h
    cases hj : isJumpType inst._type
    · obtain ⟨s, hs⟩ := hnj inst hj
      rw [hs] at h
      cases h
    · refine ⟨rfl, ?_⟩
      by_contra hno
      push_neg at hno
      have hall : ∀ p ∈ inst._params, numericMismatch p = false := by
        intro p hp
        simpa using hno p hp
      obtain ⟨s, hs⟩ :=
        renderParams_ok_of_all_not_mismatch inst._type inst._params hall true
      rw [hok inst s hs] at h
      cases h
  · rintro ⟨hj, p, hp, hm⟩
    exact herr inst p hj hp hm

/-- Witness for the amended claim C3: a jump instruction with an
inconsistent numeric parameter fails with bad_get. -/
theorem C3_witness :
    render exJumpBadInt = Except.error BadGet.badGet :=
  C3_amended.2.1 exJumpBadInt
    { _type := ParamType.kInt, _value := Value.vUInt 5 } rfl (by decide) rfl

/-- Claim C4: on control-transfer categories, signed numeric parameters
print as 0x plus uppercase hexadecimal of the twos-complement of the
signed value, unsigned numeric parameters as 0x plus uppercase
hexadecimal of the unsigned value, and text parameters in default form;
on every other category every parameter prints in default form. Category
kJump with signed value -16 yields 0xFFFFFFF0, kLoad with the same
parameter yields -16, kCall with unsigned value 4096 yields 0x1000. -/
theorem C4_category_formatting :
    (∀ (t : InstType) (p : Parameter) (i : Int), isJumpType t = true →
      (p._type = ParamType.kSByte ∨ p._type = ParamType.kShort ∨
        p._type = ParamType.kInt) →
      p._value = Value.vInt i →
      renderParam t p = Except.ok (" 0x" ++ hexU32 (uint32Of i))) ∧
    (∀ (t : InstType) (p : Parameter) (n : Nat), isJumpType t = true →
      (p._type = ParamType.kByte ∨ p._type = ParamType.kUShort ∨
        p._type = ParamType.kUInt) →
      p._value = Value.vUInt n →
      renderParam t p = Except.ok (" 0x" ++ hexU32 n)) ∧
    (∀ (t : InstType) (p : Parameter) (s : String), isJumpType t = true →
      p._type = ParamType.kString → p._value = Value.vStr s →
      renderParam t p = Except.ok (" " ++ s)) ∧
    (∀ (t : InstType) (p : Parameter), isJumpType t = false →
      renderParam t p = Except.ok (" " ++ renderValue p._value)) ∧
    render exJumpNeg16 = Except.ok "00000000: foo 0xFFFFFFF0 (0)\n" ∧
    render exLoadNeg16 = Except.ok "00000000: foo -16 (0)\n" ∧
    render exCall4096 = Except.ok "00000000: foo 0x1000 (0)\n" := by
  refine ⟨?_, ?_, ?_, ?_, by rfl, by rfl, by rfl⟩
  · intro t p i hj hty hv
    obtain ⟨pt, pv⟩ := p
    simp only at hty hv
    rcases hty with h | h | h <;> subst h <;> subst hv <;>
      simp [renderParam, hj, Parameter.getSigned]
  · intro t p n hj hty hv
    obtain ⟨pt, pv⟩ := p
    simp only at hty hv
    rcases hty with h | h | h <;> subst h <;> subst hv <;>
      simp [renderParam, hj, Parameter.getUnsigned]
  · intro t p s hj hty hv
    obtain ⟨pt, pv⟩ := p
    simp only at hty hv
    subst hty
    subst hv
    simp [renderParam, hj, renderValue]
  · intro t p h
    simp [renderParam, h]

/-- Witness for claim C4: the jump-category loop body applied to the
signed int parameter of value -16. -/
theorem C4_witness :
    renderParam InstType.kJump
      { _type := ParamType.kInt, _value := Value.vInt (-16) } =
      Except.ok (" 0x" ++ hexU32 (uint32Of (-16))) :=
  C4_category_formatting.1 InstType.kJump
    { _type := ParamType.kInt, _value := Value.vInt (-16) } (-16)
    rfl (Or.inr (Or.inr rfl)) rfl

/-- Claim C5: a parameter built with a kind and the value alternative
that kind implies answers the implied accessor with exactly the stored
value, and the two other accessors fail with bad_get. -/
theorem C5_round_trip :
    ∀ t : ParamType,
      (isSignedKind t = true → ∀ i : Int,
        Parameter.getSigned { _type := t, _value := Value.vInt i } = Except.ok i ∧
        Parameter.getUnsigned { _type := t, _value := Value.vInt i } =
          Except.error BadGet.badGet ∧
        Parameter.getString { _type := t, _value := Value.vInt i } =
          Except.error BadGet.badGet) ∧
      (isUnsignedKind t = true → ∀ n : Nat,
        Parameter.getUnsigned { _type := t, _value := Value.vUInt n } = Except.ok n ∧
        Parameter.getSigned { _type := t, _value := Value.vUInt n } =
          Except.error BadGet.badGet ∧
        Parameter.getString { _type := t, _value := Value.vUInt n } =
          Except.error BadGet.badGet) ∧
      (t = ParamType.kString → ∀ s : String,
        Parameter.getString { _type := t, _value := Value.vStr s } = Except.ok s ∧
        Parameter.getSigned { _type := t, _value := Value.vStr s } =
          Except.error BadGet.badGet ∧
        Parameter.getUnsigned { _type := t, _value := Value.vStr s } =
          Except.error BadGet.badGet) :=
  fun _ =>
    ⟨fun _ _ => ⟨rfl, rfl, rfl⟩, fun _ _ => ⟨rfl, rfl, rfl⟩,
     fun _ _ => ⟨rfl, rfl, rfl⟩⟩

/-- Witness for claim C5 at the signed kind kInt and stored value 7. -/
theorem C5_witness :
    Parameter.getSigned { _type := ParamType.kInt, _value := Value.vInt 7 } =
      Except.ok 7 ∧
    Parameter.getUnsigned { _type := ParamType.kInt, _value := Value.vInt 7 } =
      Except.error BadGet.badGet ∧
    Parameter.getString { _type := ParamType.kInt, _value := Value.vInt 7 } =
      Except.error BadGet.badGet :=
  (C5_round_trip ParamType.kInt).1 rfl 7

/-- Claim C6: successful rendering ends, after the parameters, with a
space, the stack delta in parentheses in signed decimal, then a newline;
delta -2 prints as (-2) and delta 3 as (3). -/
theorem C6_stack_suffix :
    (∀ (inst : Instruction) (r : String), render inst = Except.ok r →
      ∃ pre, r = pre ++ " (" ++ toString inst._stackChange ++ ")" ++ "\n") ∧
    render exNeg2 = Except.ok "00000000: foo (-2)\n" ∧
    render exPos3 = Except.ok "00000000: foo (3)\n" := by
  refine ⟨?_, by rfl, by rfl⟩
  intro inst r h
  cases heq : renderParams inst._type true inst._params with
  | error e => simp [render, heq] at h
  | ok ps =>
    simp only [render, heq, Except.ok.injEq] at h
    exact ⟨addrField inst._address ++ ": " ++ inst._name ++ ps, by rw [← h]⟩

/-- Witness for claim C6 at the concrete instruction with stack delta -2. -/
theorem C6_witness :
    ∃ pre, "00000000: foo (-2)\n" =
      pre ++ " (" ++ toString exNeg2._stackChange ++ ")" ++ "\n" :=
  C6_stack_suffix.1 exNeg2 "00000000: foo (-2)\n" (by rfl)

/-- Claim C7: rendering is deterministic, a function of the stored
fields it reads; two instructions agreeing on address, name, category,
parameters and stack delta render identically. -/
theorem C7_determinism :
    ∀ i1 i2 : Instruction,
      i1._address = i2._address → i1._name = i2._name → i1._type = i2._type →
      i1._params = i2._params → i1._stackChange = i2._stackChange →
      render i1 = render i2 := by
  intro i1 i2 h1 h2 h3 h4 h5
  simp only [render, h1, h2, h3, h4, h5]

/-- Witness for claim C7: two instructions differing only in opcode and
code generation metadata render identically. -/
theorem C7_witness : render exOp1 = render exOp2 :=
  C7_determinism exOp1 exOp2 rfl rfl rfl rfl rfl

/-- Claim C8: reverse traversal of an instruction stream is exactly the
reversal of forward traversal: same elements, same multiplicities, no
loss or duplication. -/
theorem C8_traversal :
    ∀ s : List Instruction,
      reverseSeq s = (forwardSeq s).reverse ∧
      (reverseSeq s).reverse = forwardSeq s ∧
      (reverseSeq s).length = (forwardSeq s).length ∧
      List.Perm (reverseSeq s) (forwardSeq s) :=
  fun s => ⟨rfl, List.reverse_reverse s, List.length_reverse s, List.reverse_perm s⟩

/-- Claim C9: accessor success is decided solely by the stored variant
alternative, never by the declared kind: the result of each accessor is
invariant under changes of the declared kind, and under declared kind
kByte with a stored signed alternative the signed accessor succeeds
while the unsigned accessor fails. -/
theorem C9_variant_decides :
    (∀ (t1 t2 : ParamType) (v : Value),
      Parameter.getSigned { _type := t1, _value := v } =
        Parameter.getSigned { _type := t2, _value := v } ∧
      Parameter.getUnsigned { _type := t1, _value := v } =
        Parameter.getUnsigned { _type := t2, _value := v } ∧
      Parameter.getString { _type := t1, _value := v } =
        Parameter.getString { _type := t2, _value := v }) ∧
    Parameter.getSigned { _type := ParamType.kByte, _value := Value.vInt 5 } =
      Except.ok 5 ∧
    Parameter.getUnsigned { _type := ParamType.kByte, _value := Value.vInt 5 } =
      Except.error BadGet.badGet :=
  ⟨fun _ _ _ => ⟨rfl, rfl, rfl⟩, rfl, rfl⟩

/-- Claim C10: an instruction without parameters renders as the address
field, a colon, a space, the name, then exactly one space before the
parenthesized stack delta and the newline. -/
theorem C10_empty_params :
    ∀ inst : Instruction, inst._params = [] →
      render inst = Except.ok (addrField inst._address ++ ": " ++ inst._name ++
        " (" ++ toString inst._stackChange ++ ")" ++ "\n") := by
  intro inst h
  simp only [render, h, renderParams]
  rw [String.append_empty]

/-- Witness for claim C10 at the concrete parameterless instruction at
address 7. -/
theorem C10_witness :
    render exEmpty7 = Except.ok (addrField exEmpty7._address ++ ": " ++
      exEmpty7._name ++ " (" ++ toString exEmpty7._stackChange ++ ")" ++ "\n") :=
  C10_empty_params exEmpty7 rfl

end Decomp
